import Mathlib

/-!
Verification of the EcoBlock bridge orchestration layer (`src/lib.rs`).

The bridge coordinates four external collaborators (ledger storage,
cryptography, gossip transport, mesh topology) behind a node context and a
set of bootstrap functions operating on a node directory.  The orchestration
code itself is embedded faithfully below; the external collaborators
(crates `ecoblock_storage`, `ecoblock_crypto`, `ecoblock_gossip`,
`ecoblock_mesh`, `serde_json`) are not part of this repository and are
modelled from the spec's interface descriptions, either as parameters of the
definitions or as small spec-faithful state machines.
-/

namespace EcoblockBridge

/-- Byte buffers (`Vec<u8>`) are modelled as lists of naturals. -/
abbrev Bytes := List Nat

/-- Modelled from the spec: the node directory's filesystem state, an
association list from path strings to directory entries.  An entry `some b`
is a readable file with content `b`; an entry `none` is a file that exists
but cannot be read (the spec's "absent/unreadable" IO-error taxonomy names
both failure modes).  `fs::read`, `fs::write`, `fs::remove_file` and
`Path::exists` act on it below. -/
abbrev FS := List (String × Option Bytes)

/-- The directory entry at path `p`: `none` when the file is absent,
`some none` when it is present but unreadable, `some (some b)` when it is
readable with content `b`. -/
def fsLookup (fs : FS) (p : String) : Option (Option Bytes) :=
  (fs.find? (fun q => q.1 == p)).map (·.2)

/-- Modelled from the spec: `fs::read` — the content on success, an IO error
description when the file is absent or unreadable. -/
def fsRead (fs : FS) (p : String) : Except String Bytes :=
  match fsLookup fs p with
  | some (some b) => Except.ok b
  | some none => Except.error "Permission denied"
  | none => Except.error "No such file or directory"

/-- Modelled from the spec: `fs::write` — creates or truncates the file,
leaving it readable. -/
def fsWrite (fs : FS) (p : String) (b : Bytes) : FS :=
  (p, some b) :: fs.filter (fun q => !(q.1 == p))

/-- Modelled from the spec: `fs::remove_file`, with its result ignored by the
caller (`reset_node` does `let _ = ...`): removing an absent file is a no-op
on the state. -/
def fsRemove (fs : FS) (p : String) : FS :=
  fs.filter (fun q => !(q.1 == p))

/-- Modelled from the spec: `Path::exists` — true for any present entry,
readable or not. -/
def fsExists (fs : FS) (p : String) : Bool :=
  (fsLookup fs p).isSome

/-- `keypair_path`: `PathBuf::from(path).join("node_keypair.bin")`. -/
def keypair_path (path : String) : String :=
  path ++ "/node_keypair.bin"

/-- `load_keypair`: read the keypair file, then parse it.  The external
`CryptoKeypair::from_bytes` is passed in as `fromBytes`; `KP` is the opaque
keypair type of the crypto collaborator. -/
def load_keypair {KP : Type} (fromBytes : Bytes → Except String KP)
    (fs : FS) (path : String) : Except String KP :=
  match fsRead fs (keypair_path path) with
  | Except.error e => Except.error ("IO error: " ++ e)
  | Except.ok bytes =>
    match fromBytes bytes with
    | Except.error e => Except.error ("Crypto error: " ++ e)
    | Except.ok kp => Except.ok kp

/-- `generate_keypair`: persist a freshly generated keypair and return its
public key hex.  `CryptoKeypair::generate()` is nondeterministic in the
source; the generated keypair arrives here as the argument `kp`.  The source
re-reads the file after writing (for its debug logging) and surfaces a read
failure as an IO error, which the embedding mirrors. -/
def generate_keypair {KP : Type} (toBytes : KP → Bytes) (pubHex : KP → String)
    (kp : KP) (fs : FS) (path : String) : FS × Except String String :=
  let fs1 := fsWrite fs (keypair_path path) (toBytes kp)
  match fsRead fs1 (keypair_path path) with
  | Except.error e => (fs1, Except.error ("IO error: " ++ e))
  | Except.ok _ => (fs1, Except.ok (pubHex kp))

/-- `get_public_key`: load the keypair and return its public key hex. -/
def get_public_key {KP : Type} (fromBytes : Bytes → Except String KP)
    (pubHex : KP → String) (fs : FS) (path : String) : Except String String :=
  match load_keypair fromBytes fs path with
  | Except.error e => Except.error e
  | Except.ok keypair => Except.ok (pubHex keypair)

/-- `get_node_id`: load the keypair, bind its public key hex to `node_id`,
return it. -/
def get_node_id {KP : Type} (fromBytes : Bytes → Except String KP)
    (pubHex : KP → String) (fs : FS) (path : String) : Except String String :=
  match load_keypair fromBytes fs path with
  | Except.error e => Except.error e
  | Except.ok keypair => Except.ok (pubHex keypair)

/-- `initialize_tangle`: constructs a transient `Tangle` and discards it — an
observable no-op that always succeeds. -/
def initialize_tangle : Except String Unit :=
  Except.ok ()

/-- `initialize_mesh`: constructs a transient `TopologyGraph`, loads the node
id (propagating its error), registers the node in the transient graph and
discards it. -/
def initialize_mesh {KP : Type} (fromBytes : Bytes → Except String KP)
    (pubHex : KP → String) (fs : FS) (path : String) : Except String Unit :=
  match get_node_id fromBytes pubHex fs path with
  | Except.error e => Except.error e
  | Except.ok _node_id => Except.ok ()

/-- `node_is_initialized`: existence check on the keypair file, always `Ok`. -/
def node_is_initialized (fs : FS) (path : String) : Except String Bool :=
  Except.ok (fsExists fs (keypair_path path))

/-- `create_local_node`: guarded bootstrap — `AlreadyInitialized` if the
keypair file exists, otherwise keypair generation, tangle init, mesh init,
then return the node id. -/
def create_local_node {KP : Type} (toBytes : KP → Bytes)
    (fromBytes : Bytes → Except String KP) (pubHex : KP → String)
    (kp : KP) (fs : FS) (path : String) : FS × Except String String :=
  match node_is_initialized fs path with
  | Except.error e => (fs, Except.error e)
  | Except.ok true => (fs, Except.error "AlreadyInitialized")
  | Except.ok false =>
    match generate_keypair toBytes pubHex kp fs path with
    | (fs1, Except.error e) => (fs1, Except.error e)
    | (fs1, Except.ok _) =>
      match initialize_tangle with
      | Except.error e => (fs1, Except.error e)
      | Except.ok _ =>
        match initialize_mesh fromBytes pubHex fs1 path with
        | Except.error e => (fs1, Except.error e)
        | Except.ok _ => (fs1, get_node_id fromBytes pubHex fs1 path)

/-- `reset_node`: best-effort delete of the keypair file, result ignored,
always `Ok(())`. -/
def reset_node (fs : FS) (path : String) : FS × Except String Unit :=
  (fsRemove fs (keypair_path path), Except.ok ())

/-- `TangleBlockData` (crate `ecoblock_core`): parents plus one
`SensorData` value, whose type `SD` is opaque to the orchestrator. -/
structure TangleBlockData (SD : Type) where
  parents : List String
  data : SD

/-- Modelled from the spec: a `TangleBlock` (crate `ecoblock_storage`) — an
immutable, identity-bearing, signed wrapper around the block data.  The
construction `TangleBlock::new(block_data, &keypair)` is external and is
passed into the orchestration functions as a parameter `mkBlock`. -/
structure TangleBlock (SD : Type) where
  id : String
  signature : Bytes
  blockData : TangleBlockData SD

/-- Modelled from the spec: the `Tangle` ledger — an insert-only
content-addressed DAG store keyed by entry identifier. -/
structure Tangle (SD : Type) where
  blocks : List (TangleBlock SD)

/-- `Tangle::new()`. -/
def Tangle.new (SD : Type) : Tangle SD := ⟨[]⟩

/-- `Tangle::len()`: current count of entries. -/
def Tangle.len {SD : Type} (t : Tangle SD) : Nat :=
  t.blocks.length

/-- Modelled from the spec: `Tangle::insert` returns `Result<(), _>`; the
store is keyed by entry id and insert-only, so re-insertion of an existing
id fails (leaving the store unchanged) and a fresh id is appended. -/
def Tangle.insert {SD : Type} (t : Tangle SD) (b : TangleBlock SD) :
    Tangle SD × Except String Unit :=
  if t.blocks.any (fun b0 => b0.id == b.id) then
    (t, Except.error "BlockAlreadyExists")
  else
    (⟨t.blocks ++ [b]⟩, Except.ok ())

/-- Modelled from the spec: the gossip engine is fire-and-forget with no
observed return value; its state records the entries handed to it so that
"propagation occurred" is observable in the model. -/
structure GossipEngine (SD : Type) where
  propagated : List (TangleBlock SD)

/-- `GossipEngine::new()`. -/
def GossipEngine.new (SD : Type) : GossipEngine SD := ⟨[]⟩

/-- `GossipEngine::propagate_block`. -/
def GossipEngine.propagate_block {SD : Type} (e : GossipEngine SD)
    (b : TangleBlock SD) : GossipEngine SD :=
  ⟨e.propagated ++ [b]⟩

/-- Modelled from the spec: the mesh `TopologyGraph` — a mapping from peer
identifier to a sequence of (neighbor identifier, weight) pairs; the weight
type `W` (`f32` in the source) is opaque to the orchestrator, which never
computes with it. -/
structure TopologyGraph (W : Type) where
  adj : List (String × List (String × W))

/-- `TopologyGraph::new()`. -/
def TopologyGraph.new (W : Type) : TopologyGraph W := ⟨[]⟩

/-- `TopologyGraph::get_neighbors`: `None` for an unknown peer, otherwise
the peer's neighbor list. -/
def TopologyGraph.get_neighbors {W : Type} (g : TopologyGraph W)
    (id : String) : Option (List (String × W)) :=
  (g.adj.find? (fun p => p.1 == id)).map (·.2)

/-- Modelled from the spec: `TopologyGraph::add_node` registers a peer with
no neighbors if it is not yet present. -/
def TopologyGraph.add_node {W : Type} (g : TopologyGraph W) (id : String) :
    TopologyGraph W :=
  if g.adj.any (fun p => p.1 == id) then g else ⟨g.adj ++ [(id, [])]⟩

/-- Modelled from the spec: `TopologyGraph::add_connection` — direction and
duplicate semantics are owned by the external collaborator; modelled as
appending the edge to the source peer's adjacency list. -/
def TopologyGraph.add_connection {W : Type} (g : TopologyGraph W)
    (a b : String) (w : W) : TopologyGraph W :=
  if g.adj.any (fun p => p.1 == a) then
    ⟨g.adj.map (fun p => if p.1 == a then (p.1, p.2 ++ [(b, w)]) else p)⟩
  else
    ⟨g.adj ++ [(a, [(b, w)])]⟩

/-- `EcoBlockContext`: the node context owning one tangle, one keypair, one
gossip engine and one mesh. -/
structure EcoBlockContext (KP SD W : Type) where
  tangle : Tangle SD
  keypair : KP
  gossip_engine : GossipEngine SD
  mesh : TopologyGraph W

/-- `EcoBlockContext::create_block`: deserialize the payload (returning the
formatted error message on failure), package parents and sensor data,
construct the signed block, insert it into the tangle discarding the
insertion result (`.ok()`), propagate it via gossip, and return the block's
id.  `serde_json::from_slice` and `TangleBlock::new` are the external
parameters `deserialize` and `mkBlock`. -/
def EcoBlockContext.create_block {KP SD W : Type}
    (deserialize : Bytes → Except String SD)
    (mkBlock : TangleBlockData SD → KP → TangleBlock SD)
    (ctx : EcoBlockContext KP SD W) (data : Bytes) (parents : List String) :
    EcoBlockContext KP SD W × String :=
  match deserialize data with
  | Except.error e => (ctx, "Erreur de désérialisation SensorData: " ++ e)
  | Except.ok sensor_data =>
    let block_data : TangleBlockData SD := ⟨parents, sensor_data⟩
    let block := mkBlock block_data ctx.keypair
    let id := block.id
    let ins := ctx.tangle.insert block
    let gossip1 := ctx.gossip_engine.propagate_block block
    ({ ctx with tangle := ins.1, gossip_engine := gossip1 }, id)

/-- `EcoBlockContext::tangle_size`. -/
def EcoBlockContext.tangle_size {KP SD W : Type}
    (ctx : EcoBlockContext KP SD W) : Nat :=
  ctx.tangle.len

/-- `EcoBlockContext::add_peer_connection`: forwards to the mesh. -/
def EcoBlockContext.add_peer_connection {KP SD W : Type}
    (ctx : EcoBlockContext KP SD W) (a b : String) (w : W) :
    EcoBlockContext KP SD W :=
  { ctx with mesh := ctx.mesh.add_connection a b w }

/-- `EcoBlockContext::list_peers`: neighbor ids with weights dropped, empty
for an unknown peer. -/
def EcoBlockContext.list_peers {KP SD W : Type}
    (ctx : EcoBlockContext KP SD W) (peer_id : String) : List String :=
  match ctx.mesh.get_neighbors peer_id with
  | some neighbors => neighbors.map (·.1)
  | none => []

/-! Concrete instantiations of the external collaborators, used to evaluate
the theorems on closed inputs. -/

/-- A concrete deserializer: the byte `[1]` is the one well-formed payload. -/
def testDeserialize : Bytes → Except String Unit
  | [1] => Except.ok ()
  | _ => Except.error "bad"

/-- A concrete block constructor assigning the id `"blk"`. -/
def testMkBlock : TangleBlockData Unit → Unit → TangleBlock Unit :=
  fun bd _ => ⟨"blk", [], bd⟩

/-- A context with an empty tangle, gossip log and mesh. -/
def testCtx : EcoBlockContext Unit Unit Unit :=
  ⟨⟨[]⟩, (), ⟨[]⟩, ⟨[]⟩⟩

/-- A context whose tangle already holds a block with id `"blk"`. -/
def testCtxDup : EcoBlockContext Unit Unit Unit :=
  ⟨⟨[⟨"blk", [], ⟨[], ()⟩⟩]⟩, (), ⟨[]⟩, ⟨[]⟩⟩

/-- A context whose mesh knows peer `"A"` with one neighbor `"B"`. -/
def testCtxMesh : EcoBlockContext Unit Unit Unit :=
  ⟨⟨[]⟩, (), ⟨[]⟩, ⟨[("A", [("B", ())])]⟩⟩

/-- A concrete keypair parser: keypairs are their own byte serialization. -/
def testKPFromBytes : Bytes → Except String Bytes :=
  fun b => Except.ok b

/-- A concrete public-key-hex function. -/
def testPubHex : Bytes → String :=
  fun _ => "PK"

/-- A node directory filesystem whose keypair file exists and is readable. -/
def testFsInit : FS := [("d/node_keypair.bin", some [7])]

/-- A node directory filesystem whose keypair file exists but is unreadable. -/
def testFsUnreadable : FS := [("d/node_keypair.bin", none)]

/-! Helper lemmas about the filesystem model. -/

theorem fsLookup_fsWrite_self (fs : FS) (p : String) (b : Bytes) :
    fsLookup (fsWrite fs p b) p = some (some b) := by
  simp [fsLookup, fsWrite, List.find?]

theorem fsRead_fsWrite_self (fs : FS) (p : String) (b : Bytes) :
    fsRead (fsWrite fs p b) p = Except.ok b := by
  simp [fsRead, fsLookup_fsWrite_self]

theorem fsExists_fsWrite_self (fs : FS) (p : String) (b : Bytes) :
    fsExists (fsWrite fs p b) p = true := by
  simp [fsExists, fsLookup_fsWrite_self]

theorem fsLookup_fsRemove_self (fs : FS) (p : String) :
    fsLookup (fsRemove fs p) p = none := by
  induction fs with
  | nil => rfl
  | cons q t ih =>
    by_cases h : q.1 == p
    · simp only [fsRemove, List.filter, h] at ih ⊢
      exact ih
    · simp only [Bool.not_eq_true] at h
      simp only [fsRemove, fsLookup, List.filter, List.find?, h] at ih ⊢
      exact ih

/-- C2: for every byte payload on which deserialization as SensorData fails,
`create_block` returns the formatted human-readable error message and has no
side effects: the context is returned unchanged, so `tangle_size` is
unchanged and the gossip engine has propagated nothing new. -/
theorem create_block_malformed_payload {KP SD W : Type}
    (deserialize : Bytes → Except String SD)
    (mkBlock : TangleBlockData SD → KP → TangleBlock SD)
    (ctx : EcoBlockContext KP SD W) (data : Bytes) (parents : List String)
    (e : String) (hdes : deserialize data = Except.error e) :
    ctx.create_block deserialize mkBlock data parents
      = (ctx, "Erreur de désérialisation SensorData: " ++ e)
    ∧ (ctx.create_block deserialize mkBlock data parents).1.tangle_size
      = ctx.tangle_size
    ∧ (ctx.create_block deserialize mkBlock data parents).1.gossip_engine
      = ctx.gossip_engine := by
  simp [EcoBlockContext.create_block, hdes]

theorem create_block_malformed_payload_witness :
    testCtx.create_block testDeserialize testMkBlock [0] []
      = (testCtx, "Erreur de désérialisation SensorData: bad")
    ∧ (testCtx.create_block testDeserialize testMkBlock [0] []).1.tangle_size
      = testCtx.tangle_size
    ∧ (testCtx.create_block testDeserialize testMkBlock [0] []).1.gossip_engine
      = testCtx.gossip_engine :=
  create_block_malformed_payload testDeserialize testMkBlock testCtx [0] [] "bad" rfl

/-- C7: `list_peers` returns exactly the neighbor identifiers yielded by the
topology with the weights dropped, in the topology's order, and returns the
empty sequence when `get_neighbors` reports no such peer. -/
theorem list_peers_drops_weights {KP SD W : Type}
    (ctx : EcoBlockContext KP SD W) (peer_id : String) :
    (∀ ns : List (String × W), ctx.mesh.get_neighbors peer_id = some ns →
        ctx.list_peers peer_id = ns.map Prod.fst)
    ∧ (ctx.mesh.get_neighbors peer_id = none →
        ctx.list_peers peer_id = []) := by
  constructor
  · intro ns h
    simp [EcoBlockContext.list_peers, h]
  · intro h
    simp [EcoBlockContext.list_peers, h]

theorem list_peers_drops_weights_witness :
    testCtxMesh.list_peers "A" = ["B"] ∧ testCtxMesh.list_peers "C" = [] :=
  ⟨(list_peers_drops_weights testCtxMesh "A").1 [("B", ())] rfl,
   (list_peers_drops_weights testCtxMesh "C").2 rfl⟩

/-- C1: for every byte payload that deserializes as SensorData and every
parent-id sequence, `create_block` returns the constructed entry's id, that
id is non-empty, and `tangle_size` immediately after is one greater than
before.  The hypotheses `hid` and `hfresh` are the spec-modelled contract of
the external `TangleBlock::new`: the id it assigns at construction is unique
(hence non-empty and not yet present in the ledger). -/
theorem create_block_valid_payload {KP SD W : Type}
    (deserialize : Bytes → Except String SD)
    (mkBlock : TangleBlockData SD → KP → TangleBlock SD)
    (ctx : EcoBlockContext KP SD W) (data : Bytes) (parents : List String)
    (sd : SD) (hdes : deserialize data = Except.ok sd)
    (hid : (mkBlock ⟨parents, sd⟩ ctx.keypair).id ≠ "")
    (hfresh : ctx.tangle.blocks.any
        (fun b0 => b0.id == (mkBlock ⟨parents, sd⟩ ctx.keypair).id) = false) :
    (ctx.create_block deserialize mkBlock data parents).2
      = (mkBlock ⟨parents, sd⟩ ctx.keypair).id
    ∧ (ctx.create_block deserialize mkBlock data parents).2 ≠ ""
    ∧ (ctx.create_block deserialize mkBlock data parents).1.tangle_size
      = ctx.tangle_size + 1 := by
  refine ⟨?_, ?_, ?_⟩ <;>
    simp [EcoBlockContext.create_block, hdes, Tangle.insert, hfresh,
      EcoBlockContext.tangle_size, Tangle.len, hid]

theorem create_block_valid_payload_witness :
    (testCtx.create_block testDeserialize testMkBlock [1] []).2 = "blk"
    ∧ (testCtx.create_block testDeserialize testMkBlock [1] []).2 ≠ ""
    ∧ (testCtx.create_block testDeserialize testMkBlock [1] []).1.tangle_size
      = testCtx.tangle_size + 1 :=
  create_block_valid_payload testDeserialize testMkBlock testCtx [1] [] ()
    rfl (by decide) rfl

/-- C3: for every successfully deserialized payload, a failure of the ledger
insert step is not surfaced by `create_block`: the call still hands the
entry to the gossip engine and still returns the entry's id, never the
insertion error. -/
theorem create_block_insert_error_swallowed {KP SD W : Type}
    (deserialize : Bytes → Except String SD)
    (mkBlock : TangleBlockData SD → KP → TangleBlock SD)
    (ctx : EcoBlockContext KP SD W) (data : Bytes) (parents : List String)
    (sd : SD) (err : String) (hdes : deserialize data = Except.ok sd)
    (_hins : (ctx.tangle.insert (mkBlock ⟨parents, sd⟩ ctx.keypair)).2
      = Except.error err) :
    (ctx.create_block deserialize mkBlock data parents).2
      = (mkBlock ⟨parents, sd⟩ ctx.keypair).id
    ∧ (ctx.create_block deserialize mkBlock data parents).1.gossip_engine.propagated
      = ctx.gossip_engine.propagated ++ [mkBlock ⟨parents, sd⟩ ctx.keypair] := by
  constructor
  · simp [EcoBlockContext.create_block, hdes]
  · simp [EcoBlockContext.create_block, hdes, GossipEngine.propagate_block]

theorem create_block_insert_error_swallowed_witness :
    (testCtxDup.create_block testDeserialize testMkBlock [1] []).2 = "blk"
    ∧ (testCtxDup.create_block testDeserialize testMkBlock [1] []).1.gossip_engine.propagated
      = testCtxDup.gossip_engine.propagated ++ [testMkBlock ⟨[], ()⟩ ()] :=
  create_block_insert_error_swallowed testDeserialize testMkBlock testCtxDup
    [1] [] () "BlockAlreadyExists" rfl rfl

/-- C8: `get_public_key` and `get_node_id` agree on every filesystem state
and path: both load the keypair from the same file and return the same
public-key hex on success and the same error on failure. -/
theorem get_public_key_eq_get_node_id {KP : Type}
    (fromBytes : Bytes → Except String KP) (pubHex : KP → String)
    (fs : FS) (path : String) :
    get_public_key fromBytes pubHex fs path
      = get_node_id fromBytes pubHex fs path := by
  simp [get_public_key, get_node_id]

/-! Characterizations of the bootstrap functions. -/

theorem generate_keypair_eq {KP : Type} (toBytes : KP → Bytes)
    (pubHex : KP → String) (kp : KP) (fs : FS) (path : String) :
    generate_keypair toBytes pubHex kp fs path
      = (fsWrite fs (keypair_path path) (toBytes kp), Except.ok (pubHex kp)) := by
  simp [generate_keypair, fsRead_fsWrite_self]

theorem create_local_node_already {KP : Type} (toBytes : KP → Bytes)
    (fromBytes : Bytes → Except String KP) (pubHex : KP → String)
    (kp : KP) (fs : FS) (path : String)
    (hex : fsExists fs (keypair_path path) = true) :
    create_local_node toBytes fromBytes pubHex kp fs path
      = (fs, Except.error "AlreadyInitialized") := by
  simp [create_local_node, node_is_initialized, hex]

theorem create_local_node_fresh {KP : Type} (toBytes : KP → Bytes)
    (fromBytes : Bytes → Except String KP) (pubHex : KP → String)
    (kp : KP) (fs : FS) (path : String)
    (hex : fsExists fs (keypair_path path) = false) :
    create_local_node toBytes fromBytes pubHex kp fs path
      = (fsWrite fs (keypair_path path) (toBytes kp),
         match fromBytes (toBytes kp) with
         | Except.error e => Except.error ("Crypto error: " ++ e)
         | Except.ok kp2 => Except.ok (pubHex kp2)) := by
  cases hfb : fromBytes (toBytes kp) <;>
    simp [create_local_node, node_is_initialized, hex, generate_keypair_eq,
      initialize_tangle, initialize_mesh, get_node_id, load_keypair,
      fsRead_fsWrite_self, hfb]

theorem create_local_node_ok_exists {KP : Type} (toBytes : KP → Bytes)
    (fromBytes : Bytes → Except String KP) (pubHex : KP → String)
    (kp : KP) (fs fs1 : FS) (path nid : String)
    (h : create_local_node toBytes fromBytes pubHex kp fs path
      = (fs1, Except.ok nid)) :
    fsExists fs1 (keypair_path path) = true := by
  by_cases hex : fsExists fs (keypair_path path)
  · rw [create_local_node_already toBytes fromBytes pubHex kp fs path hex] at h
    have h2 := congrArg Prod.snd h
    simp at h2
  · have hex' : fsExists fs (keypair_path path) = false := by simpa using hex
    rw [create_local_node_fresh toBytes fromBytes pubHex kp fs path hex'] at h
    have h1 := congrArg Prod.fst h
    simp only [Prod.fst] at h1
    rw [← h1]
    exact fsExists_fsWrite_self fs (keypair_path path) (toBytes kp)

/-- C4: when the keypair file already exists, `create_local_node` returns the
error `AlreadyInitialized` and leaves the filesystem (hence the keypair
file's content) unchanged; in particular a second call on the same path
after a successful first call, without an intervening `reset_node`, returns
`AlreadyInitialized` and changes nothing. -/
theorem create_local_node_already_initialized {KP : Type}
    (toBytes : KP → Bytes) (fromBytes : Bytes → Except String KP)
    (pubHex : KP → String) (kp kp2 : KP) (fs : FS) (path : String) :
    (fsExists fs (keypair_path path) = true →
        create_local_node toBytes fromBytes pubHex kp fs path
          = (fs, Except.error "AlreadyInitialized"))
    ∧ (∀ fs1 nid, create_local_node toBytes fromBytes pubHex kp fs path
          = (fs1, Except.ok nid) →
        create_local_node toBytes fromBytes pubHex kp2 fs1 path
          = (fs1, Except.error "AlreadyInitialized")) := by
  constructor
  · intro hex
    exact create_local_node_already toBytes fromBytes pubHex kp fs path hex
  · intro fs1 nid h
    exact create_local_node_already toBytes fromBytes pubHex kp2 fs1 path
      (create_local_node_ok_exists toBytes fromBytes pubHex kp fs fs1 path nid h)

theorem create_local_node_already_initialized_witness :
    create_local_node (fun b => b) testKPFromBytes testPubHex [5] testFsInit "d"
      = (testFsInit, Except.error "AlreadyInitialized")
    ∧ create_local_node (fun b => b) testKPFromBytes testPubHex [9]
        (fsWrite [] (keypair_path "d") [5]) "d"
      = (fsWrite [] (keypair_path "d") [5], Except.error "AlreadyInitialized") :=
  ⟨(create_local_node_already_initialized (fun b => b) testKPFromBytes testPubHex
      [5] [9] testFsInit "d").1 rfl,
   (create_local_node_already_initialized (fun b => b) testKPFromBytes testPubHex
      [5] [9] [] "d").2 (fsWrite [] (keypair_path "d") [5]) "PK" rfl⟩

/-- C5: `reset_node` always succeeds (also when the keypair file is absent),
`node_is_initialized` is false immediately after `reset_node` and true
immediately after a successful `create_local_node`, and `node_is_initialized`
never returns an error. -/
theorem reset_node_best_effort_and_status {KP : Type}
    (toBytes : KP → Bytes) (fromBytes : Bytes → Except String KP)
    (pubHex : KP → String) (kp : KP) (fs : FS) (path : String) :
    (reset_node fs path).2 = Except.ok ()
    ∧ node_is_initialized (reset_node fs path).1 path = Except.ok false
    ∧ (∀ fs1 nid, create_local_node toBytes fromBytes pubHex kp fs path
          = (fs1, Except.ok nid) →
        node_is_initialized fs1 path = Except.ok true)
    ∧ (∃ b, node_is_initialized fs path = Except.ok b) := by
  refine ⟨rfl, ?_, ?_, ⟨_, rfl⟩⟩
  · simp [node_is_initialized, reset_node, fsExists, fsLookup_fsRemove_self]
  · intro fs1 nid h
    simp [node_is_initialized,
      create_local_node_ok_exists toBytes fromBytes pubHex kp fs fs1 path nid h]

theorem reset_node_best_effort_and_status_witness :
    node_is_initialized (reset_node testFsInit "d").1 "d" = Except.ok false
    ∧ node_is_initialized (reset_node [] "d").1 "d" = Except.ok false :=
  ⟨(reset_node_best_effort_and_status (fun b => b) testKPFromBytes testPubHex
      [5] testFsInit "d").2.1,
   (reset_node_best_effort_and_status (fun b => b) testKPFromBytes testPubHex
      [5] [] "d").2.1⟩

/-- C6: a successful `generate_keypair` followed by `get_public_key` on the
same path returns exactly the hex string `generate_keypair` returned.  The
hypothesis `hround` is the spec-modelled contract of the external identity
component: `from_bytes` inverts `to_bytes`. -/
theorem generate_keypair_then_get_public_key {KP : Type}
    (toBytes : KP → Bytes) (fromBytes : Bytes → Except String KP)
    (pubHex : KP → String)
    (hround : ∀ k : KP, fromBytes (toBytes k) = Except.ok k)
    (kp : KP) (fs fs1 : FS) (path hx : String)
    (hgen : generate_keypair toBytes pubHex kp fs path = (fs1, Except.ok hx)) :
    get_public_key fromBytes pubHex fs1 path = Except.ok hx := by
  rw [generate_keypair_eq] at hgen
  have h1 := congrArg Prod.fst hgen
  have h2 := congrArg Prod.snd hgen
  simp only [Prod.fst, Prod.snd] at h1 h2
  rw [← h1]
  have h2' : pubHex kp = hx := by simpa using h2
  simp [get_public_key, load_keypair, fsRead_fsWrite_self, hround, h2']

theorem generate_keypair_then_get_public_key_witness :
    get_public_key testKPFromBytes testPubHex
      (fsWrite [] (keypair_path "d") [5]) "d" = Except.ok "PK" :=
  generate_keypair_then_get_public_key (fun b => b) testKPFromBytes testPubHex
    (fun _ => rfl) [5] [] (fsWrite [] (keypair_path "d") [5]) "d" "PK" rfl

/-- C10: on a directory whose keypair file is absent or present but
unreadable, `initialize_mesh` returns an IO-kind error, because it first
loads the node identity via `get_node_id`; it can only succeed on an
already-initialized directory with a readable keypair file. -/
theorem initialize_mesh_requires_keypair_file {KP : Type}
    (fromBytes : Bytes → Except String KP) (pubHex : KP → String)
    (fs : FS) (path : String)
    (hbad : fsLookup fs (keypair_path path) = none
      ∨ fsLookup fs (keypair_path path) = some none) :
    ∃ e, initialize_mesh fromBytes pubHex fs path
      = Except.error ("IO error: " ++ e) := by
  rcases hbad with hl | hl
  · exact ⟨"No such file or directory",
      by simp [initialize_mesh, get_node_id, load_keypair, fsRead, hl]⟩
  · exact ⟨"Permission denied",
      by simp [initialize_mesh, get_node_id, load_keypair, fsRead, hl]⟩

theorem initialize_mesh_requires_keypair_file_witness :
    (∃ e, initialize_mesh testKPFromBytes testPubHex [] "d"
        = Except.error ("IO error: " ++ e))
    ∧ (∃ e, initialize_mesh testKPFromBytes testPubHex testFsUnreadable "d"
        = Except.error ("IO error: " ++ e)) :=
  ⟨initialize_mesh_requires_keypair_file testKPFromBytes testPubHex [] "d"
      (Or.inl rfl),
   initialize_mesh_requires_keypair_file testKPFromBytes testPubHex
      testFsUnreadable "d" (Or.inr rfl)⟩

end EcoblockBridge
